import Mathlib

/-!
Shallow embedding of the Express web application in `src/index.js` together with
the Mongoose schemas in `src/models/Item.js` and `src/models/Feedback.js`.

Modelling choices:
* Request body fields arrive as `Option String` (`none` models a missing field,
  i.e. JavaScript `undefined`).
* JavaScript `x || d` on strings is `jsOr` (empty string and `undefined` are
  falsy, whitespace-only strings are truthy); `String.prototype.trim` is
  `jsTrim` (strip whitespace from both ends).
* The two MongoDB collections and the two in-memory fallback arrays are fields
  of `AppState`; a handler is a pure function from request data, an environment
  oracle `Env` (the generated fresh id, the current time, and whether the one
  awaited database call of the request throws) and the state to a pair of an
  `Except DbError Response` (`Except.error` means the rejection escapes the
  handler uncaught) and the successor state.
* `Date` values are milliseconds since the Unix epoch (`Nat`);
  `Date.prototype.toISOString` is implemented from that representation.
-/

/-- JavaScript `v || d` for an optional string value: `undefined` and the empty
string are falsy and fall through to the default. -/
def jsOr (v : Option String) (d : String) : String :=
  match v with
  | none => d
  | some s => if s = "" then d else s

/-- JavaScript `String.prototype.trim`: drop whitespace from both ends. -/
def jsTrim (s : String) : String :=
  ⟨((s.data.dropWhile Char.isWhitespace).reverse.dropWhile Char.isWhitespace).reverse⟩

/-- A field of a form body that is absent, empty, or whitespace-only. -/
def blankOpt (v : Option String) : Bool :=
  match v with
  | none => true
  | some s => jsTrim s == ""

/-- Left-pad the decimal representation of `n` with zeros to `w` digits. -/
def padZero (w : Nat) (n : Nat) : String :=
  let s := toString n
  ⟨List.replicate (w - s.data.length) '0' ++ s.data⟩

/-- Calendar fields of a timestamp, as produced by `Date.prototype.toISOString`. -/
structure DateFields where
  year : Nat
  month : Nat
  day : Nat
  hour : Nat
  minute : Nat
  second : Nat
  milli : Nat
deriving Repr, DecidableEq

/-- Gregorian calendar fields of `ms` milliseconds since the Unix epoch
(civil-from-days algorithm, specialised to non-negative timestamps). -/
def civilFromMs (ms : Nat) : DateFields :=
  let days := ms / 86400000
  let msOfDay := ms % 86400000
  let z := days + 719468
  let era := z / 146097
  let doe := z % 146097
  let yoe := (doe - doe / 1460 + doe / 36524 - doe / 146096) / 365
  let doy := doe - (365 * yoe + yoe / 4 - yoe / 100)
  let mp := (5 * doy + 2) / 153
  let d := doy - (153 * mp + 2) / 5 + 1
  let m := if mp < 10 then mp + 3 else mp - 9
  let y := (if m ≤ 2 then yoe + era * 400 + 1 else yoe + era * 400)
  { year := y, month := m, day := d,
    hour := msOfDay / 3600000, minute := msOfDay % 3600000 / 60000,
    second := msOfDay % 60000 / 1000, milli := msOfDay % 1000 }

/-- Render date fields in the `YYYY-MM-DDTHH:mm:ss.sssZ` shape used by
`Date.prototype.toISOString`. -/
def isoFormat (f : DateFields) : String :=
  padZero 4 f.year ++ "-" ++ padZero 2 f.month ++ "-" ++ padZero 2 f.day ++ "T" ++
    padZero 2 f.hour ++ ":" ++ padZero 2 f.minute ++ ":" ++ padZero 2 f.second ++ "." ++
    padZero 3 f.milli ++ "Z"

/-- `new Date(ms).toISOString()`. -/
def toISOString (ms : Nat) : String :=
  isoFormat (civilFromMs ms)

/-- Date fields that a syntactically valid ISO-8601 `YYYY-MM-DDTHH:mm:ss.sssZ`
timestamp may carry. -/
def ValidIsoFields (f : DateFields) : Prop :=
  f.year ≤ 9999 ∧ 1 ≤ f.month ∧ f.month ≤ 12 ∧ 1 ≤ f.day ∧ f.day ≤ 31 ∧
    f.hour ≤ 23 ∧ f.minute ≤ 59 ∧ f.second ≤ 59 ∧ f.milli ≤ 999

/-- An item of the in-memory fallback array `memoryItems`
(`{ id, title, content, createdAtIso, updatedAtIso }`). -/
structure MemItem where
  id : String
  title : String
  content : String
  createdAtIso : String
  updatedAtIso : String
deriving Repr, DecidableEq

/-- A document of the MongoDB `items` collection (schema in `models/Item.js`:
`title` trimmed required string, `content` string defaulting to `""`,
`timestamps: true`). -/
structure DbItem where
  _id : String
  title : String
  content : String
  createdAt : Nat
  updatedAt : Nat
deriving Repr, DecidableEq

/-- A document of the MongoDB `feedbacks` collection (schema in
`models/Feedback.js`: `name` trimmed string defaulting to `"Anonymous"`,
`message` trimmed required string, `timestamps: true`). -/
structure DbFeedback where
  name : String
  message : String
  createdAt : Nat
  updatedAt : Nat
deriving Repr, DecidableEq

/-- The row shape `{ id, title, updatedAtIso }` that the DB branch of
`GET /items` passes to the `items/index` view. -/
structure ItemRow where
  id : String
  title : String
  updatedAtIso : String
deriving Repr, DecidableEq

/-- The row shape `{ name, message, createdAtIso }` that `GET /feedback` passes
to the `feedback` view. -/
structure FeedbackView where
  name : String
  message : String
  createdAtIso : String
deriving Repr, DecidableEq

/-- Data handed to the template engine by `res.render`. -/
inductive ViewData where
  | page (info : String)
  | itemsList (items : List MemItem)
  | itemsRows (rows : List ItemRow)
  | itemShow (item : MemItem)
  | itemEdit (id : String) (title : String) (content : String)
  | feedbackList (entries : List FeedbackView)
  | notFoundPage (url : String)
deriving Repr, DecidableEq

/-- An HTTP response produced by a handler: a rendered view with a status, a
redirect (302), a plain `res.status(n).send(body)`, or the JSON body of
`GET /api/time`. -/
inductive Response where
  | render (status : Nat) (view : String) (data : ViewData)
  | redirect (location : String)
  | send (status : Nat) (body : String)
  | json (nowIso : String) (uptimeSeconds : ℚ)
deriving Repr, DecidableEq

/-- A MongoDB driver rejection (connection failure, buffering timeout, or
`CastError` on a malformed id). -/
inductive DbError where
  | mongoError
deriving Repr, DecidableEq

/-- Global mutable state of the process: the `useMongoDB` flag, the two MongoDB
collections and the two in-memory fallback arrays. -/
structure AppState where
  useMongoDB : Bool
  db : List DbItem
  dbFeedback : List DbFeedback
  memoryItems : List MemItem
  memoryFeedback : List DbFeedback
deriving Repr, DecidableEq

/-- Per-request environment oracle: whether the awaited database call of this
request rejects, the generated fresh id, the wall-clock time in ms, and the
monotonic clock readings backing `process.uptime()`. -/
structure Env where
  dbFail : Bool
  freshId : String
  nowMs : Nat
  startNs : Nat
  nowNs : Nat
deriving Repr, DecidableEq

/-- Modelled from the Node.js runtime: `process.uptime()` is the elapsed
monotonic time since process start, in seconds (here nanoseconds over 10^9). -/
def uptimeSeconds (env : Env) : ℚ :=
  ((env.nowNs - env.startNs : Nat) : ℚ) / 1000000000

/-- Parsed request: one constructor per route of the Express router, carrying
the path parameters and form body fields the handler reads. -/
inductive Request where
  | home (name : Option String)
  | about
  | user (name : String)
  | apiTime
  | itemsIndex
  | itemsNew
  | itemsCreate (title : Option String) (content : Option String)
  | itemShow (id : String)
  | itemEditForm (id : String)
  | itemUpdate (id : String) (title : Option String) (content : Option String)
  | itemDelete (id : String)
  | feedbackIndex
  | feedbackCreate (name : Option String) (message : Option String)
  | health
  | favicon
  | fallthrough (url : String)
deriving Repr, DecidableEq

/-- Insertion sort, descending on the key: models Mongo `.sort({key: -1})`. -/
def insertDesc {α : Type} (key : α → Nat) (x : α) : List α → List α
  | [] => [x]
  | y :: ys => if key y ≤ key x then x :: y :: ys else y :: insertDesc key x ys

/-- Sort a list descending on the key. -/
def sortByDesc {α : Type} (key : α → Nat) : List α → List α
  | [] => []
  | x :: xs => insertDesc key x (sortByDesc key xs)

/-- The `title` of `itemData` in `POST /items`:
`(title || "Untitled").toString().trim() || "Untitled"`. -/
def itemTitleOf (title : Option String) : String :=
  let t := jsTrim (jsOr title "Untitled")
  if t = "" then "Untitled" else t

/-- The `content` of `itemData` in `POST /items`: `(content || "").toString()`. -/
def itemContentOf (content : Option String) : String :=
  jsOr content ""

/-- The in-memory item built by `POST /items` (memory branch and catch branch):
`{ id, ...itemData, createdAtIso, updatedAtIso }`. -/
def memItemOf (title content : Option String) (env : Env) : MemItem :=
  { id := env.freshId, title := itemTitleOf title, content := itemContentOf content,
    createdAtIso := toISOString env.nowMs, updatedAtIso := toISOString env.nowMs }

/-- The document appended by `Item.create(itemData)`: the schema trims `title`
again and `timestamps: true` stamps both dates. -/
def dbItemOf (title content : Option String) (env : Env) : DbItem :=
  { _id := env.freshId, title := jsTrim (itemTitleOf title), content := itemContentOf content,
    createdAt := env.nowMs, updatedAt := env.nowMs }

/-- Map a MongoDB item document to the `{ id, title, content, createdAtIso,
updatedAtIso }` shape the `items/show` view receives. -/
def dbItemView (it : DbItem) : MemItem :=
  { id := it._id, title := it.title, content := it.content,
    createdAtIso := toISOString it.createdAt, updatedAtIso := toISOString it.updatedAt }

/-- Handler of `GET /items`: DB branch wrapped in try/catch falling back to
`memoryItems`; memory branch renders `memoryItems`. -/
def getItems (env : Env) (st : AppState) : Except DbError Response × AppState :=
  if st.useMongoDB then
    if env.dbFail then
      (.ok (.render 200 "items/index" (.itemsList st.memoryItems)), st)
    else
      (.ok (.render 200 "items/index" (.itemsRows
        ((sortByDesc (fun it => it.updatedAt) st.db).map fun it =>
          { id := it._id, title := it.title, updatedAtIso := toISOString it.updatedAt }))), st)
  else
    (.ok (.render 200 "items/index" (.itemsList st.memoryItems)), st)

/-- Handler of `POST /items`: builds `itemData`, then either `Item.create`
(with a catch branch pushing to `memoryItems`) or a direct push to
`memoryItems`; always redirects to the new item. -/
def postItems (title content : Option String) (env : Env) (st : AppState) :
    Except DbError Response × AppState :=
  if st.useMongoDB then
    if env.dbFail then
      let item := memItemOf title content env
      (.ok (.redirect ("/items/" ++ item.id)), { st with memoryItems := st.memoryItems ++ [item] })
    else
      let created := dbItemOf title content env
      (.ok (.redirect ("/items/" ++ created._id)), { st with db := st.db ++ [created] })
  else
    let item := memItemOf title content env
    (.ok (.redirect ("/items/" ++ item.id)), { st with memoryItems := st.memoryItems ++ [item] })

/-- Handler of `GET /items/:id`: `Item.findById` wrapped in try/catch falling
back to a lookup in `memoryItems`; a miss renders the 404 page. -/
def getItemById (id : String) (env : Env) (st : AppState) :
    Except DbError Response × AppState :=
  let url := "/items/" ++ id
  if st.useMongoDB then
    if env.dbFail then
      match st.memoryItems.find? (fun i => i.id == id) with
      | none => (.ok (.render 404 "404" (.notFoundPage url)), st)
      | some item => (.ok (.render 200 "items/show" (.itemShow item)), st)
    else
      match st.db.find? (fun i => i._id == id) with
      | none => (.ok (.render 404 "404" (.notFoundPage url)), st)
      | some it => (.ok (.render 200 "items/show" (.itemShow (dbItemView it))), st)
  else
    match st.memoryItems.find? (fun i => i.id == id) with
    | none => (.ok (.render 404 "404" (.notFoundPage url)), st)
    | some item => (.ok (.render 200 "items/show" (.itemShow item)), st)

/-- Handler of `GET /items/:id/edit`: a bare `Item.findById` with no try/catch,
so a database rejection escapes the handler. -/
def getItemEdit (id : String) (env : Env) (st : AppState) :
    Except DbError Response × AppState :=
  if env.dbFail then
    (.error .mongoError, st)
  else
    match st.db.find? (fun i => i._id == id) with
    | none => (.ok (.render 404 "404" (.notFoundPage ("/items/" ++ id ++ "/edit"))), st)
    | some it => (.ok (.render 200 "items/edit" (.itemEdit it._id it.title it.content)), st)

/-- The `title` value of the `$set` in `PUT /items/:id`:
`(title || "").toString().trim() || undefined` (`none` models `undefined`,
which Mongoose strips from the update, leaving the stored title unchanged). -/
def putTitle (title : Option String) : Option String :=
  let t := jsTrim (jsOr title "")
  if t = "" then none else some t

/-- Handler of `PUT /items/:id`: a bare `Item.findByIdAndUpdate` with no
try/catch; `$set` updates `content` always and `title` only when non-blank. -/
def putItem (id : String) (title content : Option String) (env : Env) (st : AppState) :
    Except DbError Response × AppState :=
  if env.dbFail then
    (.error .mongoError, st)
  else
    match st.db.find? (fun i => i._id == id) with
    | none => (.ok (.render 404 "404" (.notFoundPage ("/items/" ++ id))), st)
    | some _ =>
      (.ok (.redirect ("/items/" ++ id)),
        { st with db := st.db.map fun it =>
            if it._id == id then
              { it with
                title := match putTitle title with
                  | none => it.title
                  | some t => jsTrim t,
                content := jsOr content "",
                updatedAt := env.nowMs }
            else it })

/-- Handler of `DELETE /items/:id`: a bare `Item.findByIdAndDelete` with no
try/catch; deletes the matching document and redirects to the list. -/
def deleteItem (id : String) (env : Env) (st : AppState) :
    Except DbError Response × AppState :=
  if env.dbFail then
    (.error .mongoError, st)
  else
    match st.db.find? (fun i => i._id == id) with
    | none => (.ok (.render 404 "404" (.notFoundPage ("/items/" ++ id))), st)
    | some _ =>
      (.ok (.redirect "/items"), { st with db := st.db.eraseP (fun i => i._id == id) })

/-- Handler of `GET /feedback`: a bare `Feedback.find({}).sort({createdAt: -1})`
with no try/catch, mapped to view rows with `name || "Anonymous"`. -/
def getFeedback (env : Env) (st : AppState) : Except DbError Response × AppState :=
  if env.dbFail then
    (.error .mongoError, st)
  else
    (.ok (.render 200 "feedback" (.feedbackList
      ((sortByDesc (fun f => f.createdAt) st.dbFeedback).map fun f =>
        { name := if f.name = "" then "Anonymous" else f.name, message := f.message,
          createdAtIso := toISOString f.createdAt }))), st)

/-- The `name` passed to `Feedback.create` by `POST /feedback`:
`(name || "Anonymous").toString().trim() || "Anonymous"`. -/
def feedbackNameOf (name : Option String) : String :=
  let n := jsTrim (jsOr name "Anonymous")
  if n = "" then "Anonymous" else n

/-- The document appended by `Feedback.create` (schema trims `name` and
`message` again; `timestamps: true` stamps both dates). -/
def dbFeedbackOf (name : Option String) (trimmedMessage : String) (env : Env) : DbFeedback :=
  { name := jsTrim (feedbackNameOf name), message := jsTrim trimmedMessage,
    createdAt := env.nowMs, updatedAt := env.nowMs }

/-- Handler of `POST /feedback`: trims the message, persists via the bare
`Feedback.create` (no try/catch) only when the trimmed message is non-empty,
then redirects to `/feedback`. -/
def postFeedback (name message : Option String) (env : Env) (st : AppState) :
    Except DbError Response × AppState :=
  let trimmedMessage := jsTrim (jsOr message "")
  if trimmedMessage.length > 0 then
    if env.dbFail then
      (.error .mongoError, st)
    else
      (.ok (.redirect "/feedback"),
        { st with dbFeedback := st.dbFeedback ++ [dbFeedbackOf name trimmedMessage env] })
  else
    (.ok (.redirect "/feedback"), st)

/-- The router: dispatch a parsed request to its handler. Routes without a
database call never produce an `Except.error`. -/
def handle (req : Request) (env : Env) (st : AppState) :
    Except DbError Response × AppState :=
  match req with
  | .home name => (.ok (.render 200 "index" (.page (jsOr name "Visitor"))), st)
  | .about => (.ok (.render 200 "about" (.page "About")), st)
  | .user name => (.ok (.render 200 "user" (.page name)), st)
  | .apiTime => (.ok (.json (toISOString env.nowMs) (uptimeSeconds env)), st)
  | .itemsIndex => getItems env st
  | .itemsNew => (.ok (.render 200 "items/new" (.page "New Item")), st)
  | .itemsCreate title content => postItems title content env st
  | .itemShow id => getItemById id env st
  | .itemEditForm id => getItemEdit id env st
  | .itemUpdate id title content => putItem id title content env st
  | .itemDelete id => deleteItem id env st
  | .feedbackIndex => getFeedback env st
  | .feedbackCreate name message => postFeedback name message env st
  | .health => (.ok (.send 200 "OK"), st)
  | .favicon => (.ok (.send 204 ""), st)
  | .fallthrough url => (.ok (.render 404 "404" (.notFoundPage url)), st)

/-! ### Helper lemmas -/

/-- A non-empty string has positive length. -/
theorem length_pos_of_ne_empty (s : String) (h : s ≠ "") : 0 < s.length := by
  cases s with
  | mk l =>
    cases l with
    | nil => exact absurd rfl h
    | cons c cs => simp [String.length]

/-- A blank optional field, defaulted to `""` and trimmed, is the empty string. -/
theorem jsTrim_jsOr_empty_of_blank (v : Option String) (h : blankOpt v = true) :
    jsTrim (jsOr v "") = "" := by
  cases v with
  | none => rfl
  | some s =>
    have hs : jsTrim s = "" := by simpa [blankOpt] using h
    by_cases he : s = ""
    · subst he; rfl
    · simpa [jsOr, he] using hs

/-- A non-blank optional field, defaulted to `""` and trimmed, is non-empty. -/
theorem jsTrim_jsOr_ne_empty_of_not_blank (v : Option String) (h : blankOpt v = false) :
    jsTrim (jsOr v "") ≠ "" := by
  cases v with
  | none => simp [blankOpt] at h
  | some s =>
    have hs : jsTrim s ≠ "" := by simpa [blankOpt] using h
    by_cases he : s = ""
    · subst he; exact absurd rfl hs
    · simpa [jsOr, he] using hs

/-- A blank title form field yields the stored title `"Untitled"`. -/
theorem itemTitleOf_of_blank (v : Option String) (h : blankOpt v = true) :
    itemTitleOf v = "Untitled" := by
  cases v with
  | none => rfl
  | some s =>
    have hs : jsTrim s = "" := by simpa [blankOpt] using h
    by_cases he : s = ""
    · subst he; rfl
    · simp [itemTitleOf, jsOr, he, hs]

/-- A blank title form field in `PUT /items/:id` yields `undefined` in the
`$set`, so Mongoose drops the key. -/
theorem putTitle_of_blank (v : Option String) (h : blankOpt v = true) :
    putTitle v = none := by
  simp [putTitle, jsTrim_jsOr_empty_of_blank v h]

/-- A blank name form field in `POST /feedback` yields `"Anonymous"`. -/
theorem feedbackNameOf_of_blank (v : Option String) (h : blankOpt v = true) :
    feedbackNameOf v = "Anonymous" := by
  cases v with
  | none => rfl
  | some s =>
    have hs : jsTrim s = "" := by simpa [blankOpt] using h
    by_cases he : s = ""
    · subst he; rfl
    · simp [feedbackNameOf, jsOr, he, hs]

/-! ### C6 — health check -/

/-- C6: for every `GET /health` request, regardless of the database connection
state (`useMongoDB` true or false, database reachable or not), the response has
HTTP status 200 with body `"OK"` and the state is unchanged. -/
theorem health_always_200_ok (env : Env) (st : AppState) :
    handle .health env st = (.ok (.send 200 "OK"), st) := rfl

/-! ### C3 — blank feedback message is a no-op -/

/-- C3: for every `POST /feedback` request whose message field is absent,
empty, or whitespace-only after trimming, no feedback entry is persisted (the
whole state is unchanged) and the response is still a redirect to `/feedback`. -/
theorem postFeedback_blank_message_noop (name message : Option String) (env : Env)
    (st : AppState) (h : blankOpt message = true) :
    handle (.feedbackCreate name message) env st = (.ok (.redirect "/feedback"), st) := by
  simp [handle, postFeedback, jsTrim_jsOr_empty_of_blank message h]

/-- C3 witness: a concrete whitespace-only message is not persisted and still
redirects. -/
theorem postFeedback_blank_message_noop_witness :
    blankOpt (some "   ") = true ∧
      handle (.feedbackCreate (some "Bob") (some "   "))
          { dbFail := false, freshId := "a", nowMs := 5, startNs := 0, nowNs := 9 }
          { useMongoDB := true, db := [], dbFeedback := [], memoryItems := [], memoryFeedback := [] }
        = (.ok (.redirect "/feedback"),
          { useMongoDB := true, db := [], dbFeedback := [], memoryItems := [], memoryFeedback := [] }) :=
  ⟨by decide, postFeedback_blank_message_noop (some "Bob") (some "   ") _ _ (by decide)⟩

/-! ### C2 — blank item title stores "Untitled" -/

/-- C2: for every `POST /items` request whose title field is absent, empty, or
whitespace-only, every item the request adds to either backing store (the
MongoDB collection or `memoryItems`) has title exactly `"Untitled"`. -/
theorem postItems_blank_title_stores_untitled (title content : Option String)
    (env : Env) (st : AppState) (h : blankOpt title = true) :
    (∀ it ∈ (handle (.itemsCreate title content) env st).2.memoryItems,
        it ∈ st.memoryItems ∨ it.title = "Untitled") ∧
    (∀ it ∈ (handle (.itemsCreate title content) env st).2.db,
        it ∈ st.db ∨ it.title = "Untitled") := by
  have ht : itemTitleOf title = "Untitled" := itemTitleOf_of_blank title h
  cases hm : st.useMongoDB with
  | false =>
    refine ⟨fun it hit => ?_, fun it hit => ?_⟩
    · simp only [handle, postItems, hm, Bool.false_eq_true, if_false, List.mem_append,
        List.mem_singleton] at hit
      rcases hit with h1 | h2
      · exact Or.inl h1
      · exact Or.inr (by rw [h2]; simpa [memItemOf] using ht)
    · simp only [handle, postItems, hm, Bool.false_eq_true, if_false] at hit
      exact Or.inl hit
  | true =>
    cases hf : env.dbFail with
    | false =>
      refine ⟨fun it hit => ?_, fun it hit => ?_⟩
      · simp only [handle, postItems, hm, hf, Bool.false_eq_true, if_true, if_false] at hit
        exact Or.inl hit
      · simp only [handle, postItems, hm, hf, Bool.false_eq_true, if_true, if_false,
          List.mem_append, List.mem_singleton] at hit
        rcases hit with h1 | h2
        · exact Or.inl h1
        · exact Or.inr (by rw [h2]; simp [dbItemOf, ht]; rfl)
    | true =>
      refine ⟨fun it hit => ?_, fun it hit => ?_⟩
      · simp only [handle, postItems, hm, hf, if_true, List.mem_append,
          List.mem_singleton] at hit
        rcases hit with h1 | h2
        · exact Or.inl h1
        · exact Or.inr (by rw [h2]; simpa [memItemOf] using ht)
      · simp only [handle, postItems, hm, hf, if_true] at hit
        exact Or.inl hit

/-- C2 witness: a concrete whitespace-only title is stored as `"Untitled"`
(in-memory mode with one pre-existing item). -/
theorem postItems_blank_title_stores_untitled_witness :
    blankOpt (some " \t ") = true ∧
      ((∀ it ∈ (handle (.itemsCreate (some " \t ") (some "body"))
            (Env.mk false "id1" 0 0 0)
            (AppState.mk false [] [] [MemItem.mk "id0" "T" "" "x" "x"] [])).2.memoryItems,
          it ∈ [MemItem.mk "id0" "T" "" "x" "x"] ∨ it.title = "Untitled") ∧
        (∀ it ∈ (handle (.itemsCreate (some " \t ") (some "body"))
            (Env.mk false "id1" 0 0 0)
            (AppState.mk false [] [] [MemItem.mk "id0" "T" "" "x" "x"] [])).2.db,
          it ∈ ([] : List DbItem) ∨ it.title = "Untitled")) :=
  ⟨by decide, postItems_blank_title_stores_untitled (some " \t ") (some "body") _ _ (by decide)⟩

/-! ### C4 — missing item renders the 404 page -/

/-- The lookup that `GET /items/:id` ends up consulting (the MongoDB collection
when `useMongoDB` holds and the call succeeds, the `memoryItems` fallback
otherwise) finds no item with this id. -/
def noActiveItem (id : String) (env : Env) (st : AppState) : Bool :=
  if st.useMongoDB && !env.dbFail then (st.db.find? (fun i => i._id == id)).isNone
  else (st.memoryItems.find? (fun i => i.id == id)).isNone

/-- C4: for every `GET /items/:id` request whose id matches no stored item in
the active backing store, the response has HTTP status 404 and renders the 404
page (and the state is unchanged). -/
theorem getItemById_missing_renders_404 (id : String) (env : Env) (st : AppState)
    (h : noActiveItem id env st = true) :
    handle (.itemShow id) env st
      = (.ok (.render 404 "404" (.notFoundPage ("/items/" ++ id))), st) := by
  cases hm : st.useMongoDB with
  | false =>
    have hn : st.memoryItems.find? (fun i => i.id == id) = none :=
      Option.isNone_iff_eq_none.mp (by simpa [noActiveItem, hm] using h)
    simp [handle, getItemById, hm, hn]
  | true =>
    cases hf : env.dbFail with
    | false =>
      have hn : st.db.find? (fun i => i._id == id) = none :=
        Option.isNone_iff_eq_none.mp (by simpa [noActiveItem, hm, hf] using h)
      simp [handle, getItemById, hm, hf, hn]
    | true =>
      have hn : st.memoryItems.find? (fun i => i.id == id) = none :=
        Option.isNone_iff_eq_none.mp (by simpa [noActiveItem, hm, hf] using h)
      simp [handle, getItemById, hm, hf, hn]

/-- C4 witness: fetching a concrete unknown id in a populated in-memory store
renders the 404 page with status 404. -/
theorem getItemById_missing_renders_404_witness :
    noActiveItem "zzz" (Env.mk false "f" 0 0 0)
        (AppState.mk false [] [] [MemItem.mk "id0" "T" "" "x" "x"] []) = true ∧
      handle (.itemShow "zzz") (Env.mk false "f" 0 0 0)
          (AppState.mk false [] [] [MemItem.mk "id0" "T" "" "x" "x"] [])
        = (.ok (.render 404 "404" (.notFoundPage ("/items/" ++ "zzz"))),
          AppState.mk false [] [] [MemItem.mk "id0" "T" "" "x" "x"] []) :=
  ⟨by decide, getItemById_missing_renders_404 "zzz" _ _ (by decide)⟩

/-! ### C8 — blank feedback name stores "Anonymous" -/

/-- C8: for every `POST /feedback` request with a non-blank message whose name
field is absent, empty, or whitespace-only after trimming, every feedback entry
the request persists has name exactly `"Anonymous"`. -/
theorem postFeedback_blank_name_anonymous (name message : Option String) (env : Env)
    (st : AppState) (hm : blankOpt message = false) (hn : blankOpt name = true) :
    ∀ f ∈ (handle (.feedbackCreate name message) env st).2.dbFeedback,
      f ∈ st.dbFeedback ∨ f.name = "Anonymous" := by
  have hlen : 0 < (jsTrim (jsOr message "")).length :=
    length_pos_of_ne_empty _ (jsTrim_jsOr_ne_empty_of_not_blank message hm)
  have hname : jsTrim (feedbackNameOf name) = "Anonymous" := by
    rw [feedbackNameOf_of_blank name hn]; rfl
  intro f hf
  cases hfail : env.dbFail with
  | true =>
    simp only [handle, postFeedback, hfail, if_pos hlen, if_true] at hf
    exact Or.inl hf
  | false =>
    simp only [handle, postFeedback, hfail, if_pos hlen, Bool.false_eq_true, if_false,
      List.mem_append, List.mem_singleton] at hf
    rcases hf with h1 | h2
    · exact Or.inl h1
    · exact Or.inr (by rw [h2]; simpa [dbFeedbackOf] using hname)

/-- C8 witness: a concrete empty name with a real message is persisted as
`"Anonymous"`. -/
theorem postFeedback_blank_name_anonymous_witness :
    blankOpt (some "hello there") = false ∧ blankOpt (some "  ") = true ∧
      ∀ f ∈ (handle (.feedbackCreate (some "  ") (some "hello there"))
          (Env.mk false "f" 7 0 0)
          (AppState.mk true [] [DbFeedback.mk "Ada" "hi" 1 1] [] [])).2.dbFeedback,
        f ∈ [DbFeedback.mk "Ada" "hi" 1 1] ∨ f.name = "Anonymous" :=
  ⟨by decide, by decide,
    postFeedback_blank_name_anonymous (some "  ") (some "hello there") _ _
      (by decide) (by decide)⟩

/-! ### C9 — blank title in PUT leaves the stored title unchanged -/

/-- C9: for every `PUT /items/:id` request whose title field is absent, empty,
or whitespace-only after trimming, targeting an existing item, the update keeps
every stored title unchanged while setting the matched item's content to the
submitted content (and its `updatedAt` to now), and redirects to the item. -/
theorem putItem_blank_title_preserves_title (id : String) (title content : Option String)
    (env : Env) (st : AppState) (h1 : env.dbFail = false) (h2 : blankOpt title = true)
    (h3 : (st.db.find? (fun i => i._id == id)).isSome = true) :
    handle (.itemUpdate id title content) env st
      = (.ok (.redirect ("/items/" ++ id)),
        { st with db := st.db.map fun it =>
            if it._id == id then
              { it with content := jsOr content "", updatedAt := env.nowMs }
            else it }) := by
  obtain ⟨x, hx⟩ := Option.isSome_iff_exists.mp h3
  simp [handle, putItem, h1, hx, putTitle_of_blank title h2]

/-- C9 witness: a concrete whitespace-only title targeting the stored item
`"i1"` keeps its title `"Keep"` and replaces its content. -/
theorem putItem_blank_title_preserves_title_witness :
    (Env.mk false "f" 9 0 0).dbFail = false ∧ blankOpt (some " ") = true ∧
      ((AppState.mk true [DbItem.mk "i1" "Keep" "old" 0 0] [] [] []).db.find?
          (fun i => i._id == "i1")).isSome = true ∧
      handle (.itemUpdate "i1" (some " ") (some "new")) (Env.mk false "f" 9 0 0)
          (AppState.mk true [DbItem.mk "i1" "Keep" "old" 0 0] [] [] [])
        = (.ok (.redirect ("/items/" ++ "i1")),
          { AppState.mk true [DbItem.mk "i1" "Keep" "old" 0 0] [] [] [] with
            db := [DbItem.mk "i1" "Keep" "old" 0 0].map fun it =>
              if it._id == "i1" then
                { it with content := jsOr (some "new") "", updatedAt := (9 : Nat) }
              else it }) :=
  ⟨rfl, by decide, by decide,
    putItem_blank_title_preserves_title "i1" (some " ") (some "new") _ _ rfl (by decide)
      (by decide)⟩

/-! ### C10 — create-then-fetch round trip in memory mode -/

/-- C10: in in-memory mode, every `POST /items` request appends exactly one
item (with the freshly generated id) to `memoryItems` and redirects to
`/items/<that id>`; a subsequent `GET /items/<that id>` finds and renders that
same item. -/
theorem postItems_create_then_fetch (title content : Option String) (env : Env)
    (st : AppState) (h1 : st.useMongoDB = false)
    (h2 : (st.memoryItems.find? (fun i => i.id == env.freshId)).isNone = true) :
    (handle (.itemsCreate title content) env st).1
        = .ok (.redirect ("/items/" ++ env.freshId)) ∧
      (handle (.itemsCreate title content) env st).2.memoryItems
        = st.memoryItems ++ [memItemOf title content env] ∧
      handle (.itemShow env.freshId) env (handle (.itemsCreate title content) env st).2
        = (.ok (.render 200 "items/show" (.itemShow (memItemOf title content env))),
          (handle (.itemsCreate title content) env st).2) := by
  have hnone : st.memoryItems.find? (fun i => i.id == env.freshId) = none :=
    Option.isNone_iff_eq_none.mp h2
  have hfind : (st.memoryItems ++ [memItemOf title content env]).find?
      (fun i => i.id == env.freshId) = some (memItemOf title content env) := by
    rw [List.find?_append, hnone]
    simp [List.find?, memItemOf]
  refine ⟨by simp [handle, postItems, h1, memItemOf], by simp [handle, postItems, h1], ?_⟩
  simp [handle, postItems, h1, getItemById, hfind]

/-- C10 witness: a concrete create in an empty in-memory store followed by a
fetch of the generated id round-trips. -/
theorem postItems_create_then_fetch_witness :
    (AppState.mk false [] [] [] []).useMongoDB = false ∧
      (((AppState.mk false [] [] [] []).memoryItems.find?
        (fun i => i.id == (Env.mk false "n1" 3 0 0).freshId)).isNone = true) ∧
      ((handle (.itemsCreate (some "A title") (some "text")) (Env.mk false "n1" 3 0 0)
            (AppState.mk false [] [] [] [])).1
          = .ok (.redirect ("/items/" ++ (Env.mk false "n1" 3 0 0).freshId)) ∧
        (handle (.itemsCreate (some "A title") (some "text")) (Env.mk false "n1" 3 0 0)
            (AppState.mk false [] [] [] [])).2.memoryItems
          = (AppState.mk false [] [] [] []).memoryItems
            ++ [memItemOf (some "A title") (some "text") (Env.mk false "n1" 3 0 0)] ∧
        handle (.itemShow (Env.mk false "n1" 3 0 0).freshId) (Env.mk false "n1" 3 0 0)
            (handle (.itemsCreate (some "A title") (some "text")) (Env.mk false "n1" 3 0 0)
              (AppState.mk false [] [] [] [])).2
          = (.ok (.render 200 "items/show"
              (.itemShow (memItemOf (some "A title") (some "text") (Env.mk false "n1" 3 0 0)))),
            (handle (.itemsCreate (some "A title") (some "text")) (Env.mk false "n1" 3 0 0)
              (AppState.mk false [] [] [] [])).2)) :=
  ⟨rfl, by decide,
    postItems_create_then_fetch (some "A title") (some "text") (Env.mk false "n1" 3 0 0)
      (AppState.mk false [] [] [] []) rfl (by decide)⟩

/-! ### C5 — feedback is append-only -/

/-- C5: feedback entries are append-only: for every route of the application,
the feedback collection after the request is the collection before it with zero
or more entries appended (so every entry present before is still present,
unmodified, in place), and the `memoryFeedback` fallback array is never
touched. -/
theorem feedback_append_only (req : Request) (env : Env) (st : AppState) :
    (∃ tail, (handle req env st).2.dbFeedback = st.dbFeedback ++ tail) ∧
      (handle req env st).2.memoryFeedback = st.memoryFeedback := by
  cases req with
  | feedbackCreate name message =>
    simp only [handle, postFeedback]
    by_cases hlen : 0 < (jsTrim (jsOr message "")).length
    · rw [if_pos hlen]
      cases hfail : env.dbFail with
      | true => exact ⟨⟨[], by simp⟩, by simp⟩
      | false => exact ⟨⟨[dbFeedbackOf name (jsTrim (jsOr message "")) env], by simp⟩, by simp⟩
    · rw [if_neg hlen]
      exact ⟨⟨[], by simp⟩, rfl⟩
  | itemsCreate title content =>
    refine ⟨⟨[], ?_⟩, ?_⟩ <;> (simp only [handle, postItems]; repeat' split) <;> simp
  | itemsIndex =>
    refine ⟨⟨[], ?_⟩, ?_⟩ <;> (simp only [handle, getItems]; repeat' split) <;> simp
  | itemShow id =>
    refine ⟨⟨[], ?_⟩, ?_⟩ <;> (simp only [handle, getItemById]; repeat' split) <;> simp
  | itemEditForm id =>
    refine ⟨⟨[], ?_⟩, ?_⟩ <;> (simp only [handle, getItemEdit]; repeat' split) <;> simp
  | itemUpdate id title content =>
    refine ⟨⟨[], ?_⟩, ?_⟩ <;> (simp only [handle, putItem]; repeat' split) <;> simp
  | itemDelete id =>
    refine ⟨⟨[], ?_⟩, ?_⟩ <;> (simp only [handle, deleteItem]; repeat' split) <;> simp
  | feedbackIndex =>
    refine ⟨⟨[], ?_⟩, ?_⟩ <;> (simp only [handle, getFeedback]; repeat' split) <;> simp
  | home name => exact ⟨⟨[], by simp [handle]⟩, rfl⟩
  | about => exact ⟨⟨[], by simp [handle]⟩, rfl⟩
  | user name => exact ⟨⟨[], by simp [handle]⟩, rfl⟩
  | apiTime => exact ⟨⟨[], by simp [handle]⟩, rfl⟩
  | itemsNew => exact ⟨⟨[], by simp [handle]⟩, rfl⟩
  | health => exact ⟨⟨[], by simp [handle]⟩, rfl⟩
  | favicon => exact ⟨⟨[], by simp [handle]⟩, rfl⟩
  | fallthrough url => exact ⟨⟨[], by simp [handle]⟩, rfl⟩

/-! ### C7 — /api/time returns a valid ISO-8601 timestamp and non-negative uptime -/

/-- Calendar fields computed by `civilFromMs` are in valid ISO ranges for any
timestamp before year 10000 (the four-digit regime of `toISOString`). -/
theorem civilFromMs_valid (ms : Nat) (h : ms < 253402300800000) :
    ValidIsoFields (civilFromMs ms) := by
  unfold ValidIsoFields civilFromMs
  dsimp only
  split_ifs <;> refine ⟨?_, ?_, ?_, ?_, ?_, ?_, ?_, ?_, ?_⟩ <;> omega

/-- C7: for every `GET /api/time` request (at any instant before year 10000),
the JSON response carries in `nowIso` the ISO-8601 rendering of in-range date
fields and in `uptimeSeconds` a non-negative number. -/
theorem apiTime_valid_iso_and_nonneg_uptime (env : Env) (st : AppState)
    (h : env.nowMs < 253402300800000) :
    ∃ f : DateFields, ValidIsoFields f ∧
      handle .apiTime env st = (.ok (.json (isoFormat f) (uptimeSeconds env)), st) ∧
      0 ≤ uptimeSeconds env := by
  refine ⟨civilFromMs env.nowMs, civilFromMs_valid _ h, rfl, ?_⟩
  unfold uptimeSeconds
  exact div_nonneg (Nat.cast_nonneg _) (by norm_num)

/-- C7 witness: at a concrete instant the time endpoint yields a valid
timestamp and non-negative uptime. -/
theorem apiTime_valid_iso_and_nonneg_uptime_witness :
    (Env.mk false "f" 1760140800000 3 7).nowMs < 253402300800000 ∧
      ∃ f : DateFields, ValidIsoFields f ∧
        handle .apiTime (Env.mk false "f" 1760140800000 3 7) (AppState.mk true [] [] [] [])
          = (.ok (.json (isoFormat f) (uptimeSeconds (Env.mk false "f" 1760140800000 3 7))),
            AppState.mk true [] [] [] []) ∧
        0 ≤ uptimeSeconds (Env.mk false "f" 1760140800000 3 7) :=
  ⟨by decide, apiTime_valid_iso_and_nonneg_uptime _ _ (by decide)⟩

/-! ### C1 — which handlers fall back to memory on a database error -/

/-- C1 counterexample: `GET /feedback` performs its database call outside any
try/catch, so with the database failing the rejection escapes the handler
instead of the request being served from the in-memory fallback array; this
refutes the claim that every route handler with a database call catches the
error and falls back to memory. -/
theorem getFeedback_db_error_escapes :
    (handle .feedbackIndex (Env.mk true "f" 0 0 0)
        (AppState.mk true [] [] [] [DbFeedback.mk "N" "m" 0 0])).1
      = .error .mongoError := rfl

/-- C1 amended: exactly three handlers (`GET /items`, `POST /items`,
`GET /items/:id`) wrap their database call in a try/catch that serves the
request from `memoryItems`; on a failing database call they read or write
`memoryItems` exactly like in-memory mode. The other five handlers with a
database call (`GET /items/:id/edit`, `PUT /items/:id`, `DELETE /items/:id`,
`GET /feedback`, and `POST /feedback` with a non-blank message) let the
database error escape; `memoryFeedback` is never consulted. -/
theorem db_fallback_only_in_wrapped_item_handlers (id : String)
    (title content name message : Option String) (env : Env) (st : AppState)
    (hf : env.dbFail = true) :
    handle .itemsIndex env st
        = (.ok (.render 200 "items/index" (.itemsList st.memoryItems)), st) ∧
      handle (.itemsCreate title content) env st
        = (.ok (.redirect ("/items/" ++ env.freshId)),
          { st with memoryItems := st.memoryItems ++ [memItemOf title content env] }) ∧
      (handle (.itemShow id) env st).1
        = (handle (.itemShow id) env { st with useMongoDB := false }).1 ∧
      (handle (.itemEditForm id) env st).1 = .error .mongoError ∧
      (handle (.itemUpdate id title content) env st).1 = .error .mongoError ∧
      (handle (.itemDelete id) env st).1 = .error .mongoError ∧
      (handle .feedbackIndex env st).1 = .error .mongoError ∧
      (blankOpt message = false →
        (handle (.feedbackCreate name message) env st).1 = .error .mongoError) := by
  refine ⟨?_, ?_, ?_, ?_, ?_, ?_, ?_, fun hmsg => ?_⟩
  · cases hm : st.useMongoDB <;> simp [handle, getItems, hm, hf]
  · cases hm : st.useMongoDB <;> simp [handle, postItems, hm, hf, memItemOf]
  · cases hm : st.useMongoDB <;>
      simp only [handle, getItemById, hm, hf] <;>
      cases hfind : st.memoryItems.find? (fun i => i.id == id) <;>
      simp [hfind]
  · simp [handle, getItemEdit, hf]
  · simp [handle, putItem, hf]
  · simp [handle, deleteItem, hf]
  · simp [handle, getFeedback, hf]
  · have hlen : 0 < (jsTrim (jsOr message "")).length :=
      length_pos_of_ne_empty _ (jsTrim_jsOr_ne_empty_of_not_blank message hmsg)
    simp [handle, postFeedback, hf, if_pos hlen]

/-- C1 amended witness: with a failing database at a concrete state, the three
wrapped handlers fall back to memory and the other five propagate the error. -/
theorem db_fallback_only_in_wrapped_item_handlers_witness :
    (Env.mk true "g" 4 0 0).dbFail = true ∧
      (handle .itemsIndex (Env.mk true "g" 4 0 0)
          (AppState.mk true [] [] [MemItem.mk "m0" "T" "c" "x" "x"] [])
        = (.ok (.render 200 "items/index" (.itemsList [MemItem.mk "m0" "T" "c" "x" "x"])),
          AppState.mk true [] [] [MemItem.mk "m0" "T" "c" "x" "x"] []) ∧
      handle (.itemsCreate (some "t") (some "c")) (Env.mk true "g" 4 0 0)
          (AppState.mk true [] [] [MemItem.mk "m0" "T" "c" "x" "x"] [])
        = (.ok (.redirect ("/items/" ++ (Env.mk true "g" 4 0 0).freshId)),
          { AppState.mk true [] [] [MemItem.mk "m0" "T" "c" "x" "x"] [] with
            memoryItems := [MemItem.mk "m0" "T" "c" "x" "x"]
              ++ [memItemOf (some "t") (some "c") (Env.mk true "g" 4 0 0)] }) ∧
      (handle (.itemShow "m0") (Env.mk true "g" 4 0 0)
          (AppState.mk true [] [] [MemItem.mk "m0" "T" "c" "x" "x"] [])).1
        = (handle (.itemShow "m0") (Env.mk true "g" 4 0 0)
          { AppState.mk true [] [] [MemItem.mk "m0" "T" "c" "x" "x"] [] with
            useMongoDB := false }).1 ∧
      (handle (.itemEditForm "m0") (Env.mk true "g" 4 0 0)
          (AppState.mk true [] [] [MemItem.mk "m0" "T" "c" "x" "x"] [])).1
        = .error .mongoError ∧
      (handle (.itemUpdate "m0" (some "t") (some "c")) (Env.mk true "g" 4 0 0)
          (AppState.mk true [] [] [MemItem.mk "m0" "T" "c" "x" "x"] [])).1
        = .error .mongoError ∧
      (handle (.itemDelete "m0") (Env.mk true "g" 4 0 0)
          (AppState.mk true [] [] [MemItem.mk "m0" "T" "c" "x" "x"] [])).1
        = .error .mongoError ∧
      (handle .feedbackIndex (Env.mk true "g" 4 0 0)
          (AppState.mk true [] [] [MemItem.mk "m0" "T" "c" "x" "x"] [])).1
        = .error .mongoError ∧
      (blankOpt (some "msg") = false →
        (handle (.feedbackCreate (some "n") (some "msg")) (Env.mk true "g" 4 0 0)
            (AppState.mk true [] [] [MemItem.mk "m0" "T" "c" "x" "x"] [])).1
          = .error .mongoError)) :=
  ⟨rfl, db_fallback_only_in_wrapped_item_handlers "m0" (some "t") (some "c") (some "n")
    (some "msg") (Env.mk true "g" 4 0 0)
    (AppState.mk true [] [] [MemItem.mk "m0" "T" "c" "x" "x"] []) rfl⟩
